import Mathlib

/-!
Verification of the bill fraud-detection engine
(`backend/app/fraud_detector.py` and the duplicate-detection portion of
`backend/app/main.py`) against its specification.

Python values flowing through the detector (parsed invoice dictionaries,
line-item lists, numeric fields that may be numbers, strings or nested
`{value: ...}` wrappers) are modelled by the inductive type `PyVal`.
Numbers are modelled by exact rationals `ℚ`; `round(x, 2)` is modelled as
round-half-up to two decimals on the exact value (the concrete inputs used
below stay away from ties, where binary floating point could differ).
`float(...)` on a string is modelled by `parsePyFloat`, a parser for
optionally signed decimal literals with an optional exponent (the special
forms `inf`/`nan`/underscores are not modelled; no claim depends on them).
Values whose iteration/stringification would raise in Python (for example a
non-list `line_items` entry) are modelled as empty/neutral; no claim
depends on those inputs.
-/

mutual

inductive PyVal : Type where
  | pynone : PyVal
  | num : ℚ → PyVal
  | str : String → PyVal
  | list : PyList → PyVal
  | dict : PyEntries → PyVal

inductive PyList : Type where
  | nil : PyList
  | cons : PyVal → PyList → PyList

inductive PyEntries : Type where
  | nil : PyEntries
  | cons : String → PyVal → PyEntries → PyEntries

end

/-- First value stored under key `k` (Python dicts have unique keys). -/
def PyEntries.lookup : PyEntries → String → Option PyVal
  | .nil, _ => Option.none
  | .cons k v rest, key => if k = key then some v else rest.lookup key

def PyEntries.isNil : PyEntries → Bool
  | .nil => true
  | .cons _ _ _ => false

def PyList.isNil : PyList → Bool
  | .nil => true
  | .cons _ _ => false

/-- Python `d.get(k)`: `None` when the key is absent or the value is not a dict. -/
def PyVal.get : PyVal → String → PyVal
  | .dict es, k => (es.lookup k).getD .pynone
  | _, _ => .pynone

/-- Python `d.get(k, default)`: the default applies only when the key is absent. -/
def PyVal.getD : PyVal → String → PyVal → PyVal
  | .dict es, k, d => (es.lookup k).getD d
  | _, _, d => d

/-- Python `k in d` membership test. -/
def PyVal.hasKey : PyVal → String → Bool
  | .dict es, k => (es.lookup k).isSome
  | _, _ => false

/-- Python truthiness of the modelled values. -/
def PyVal.truthy : PyVal → Bool
  | .pynone => false
  | .num q => decide (q ≠ 0)
  | .str s => decide (s ≠ "")
  | .list xs => !xs.isNil
  | .dict es => !es.isNil

/-- Python `a or b`: the first operand when truthy, otherwise the second. -/
def pyOr (a b : PyVal) : PyVal := if a.truthy then a else b

/-- Python `abs` on numbers. -/
def pyAbs (q : ℚ) : ℚ := if q < 0 then -q else q

/-- Coerce to a list for iteration; non-lists are modelled as empty. -/
def asPyList : PyVal → PyList
  | .list xs => xs
  | _ => .nil

/-- Python `str(x)`, modelled exactly for strings (the only case the
detector meets in practice) and schematically for the other shapes. -/
def pyStr : PyVal → String
  | .str s => s
  | .pynone => "None"
  | .num q => if q.den = 1 then toString q.num else toString q.num ++ "/" ++ toString q.den
  | .list _ => "[...]"
  | .dict _ => "\x7b...\x7d"

def isPyWhitespace (c : Char) : Bool :=
  c = ' ' || c = '\t' || c = '\n' || c = '\r' || c = '\x0b' || c = '\x0c'

/-- Python `s.strip()`. -/
def pyStrip (s : String) : String :=
  String.mk (((s.toList.dropWhile isPyWhitespace).reverse.dropWhile isPyWhitespace).reverse)

/-- Characters removed by `re.sub(r'[₹,$\s]', '', value)`. -/
def stripCurrencyChar (c : Char) : Bool :=
  c = '₹' || c = ',' || c = '$' || isPyWhitespace c

def stripCurrency (s : String) : String :=
  String.mk (s.toList.filter (fun c => !stripCurrencyChar c))

def digitsToNat (cs : List Char) : ℕ :=
  cs.foldl (fun a c => a * 10 + (c.toNat - 48)) 0

/-- Parse the signed digits after an exponent mark and apply them to `m`. -/
def parseExpAfterMark (rest : List Char) (m : ℚ) : Option ℚ :=
  match rest with
  | '-' :: r =>
      let ds := r.takeWhile Char.isDigit
      if ds.isEmpty || !(r.dropWhile Char.isDigit).isEmpty then Option.none
      else some (m * (10 : ℚ) ^ (-(digitsToNat ds : ℤ)))
  | '+' :: r =>
      let ds := r.takeWhile Char.isDigit
      if ds.isEmpty || !(r.dropWhile Char.isDigit).isEmpty then Option.none
      else some (m * (10 : ℚ) ^ (digitsToNat ds))
  | r =>
      let ds := r.takeWhile Char.isDigit
      if ds.isEmpty || !(r.dropWhile Char.isDigit).isEmpty then Option.none
      else some (m * (10 : ℚ) ^ (digitsToNat ds))

/-- Parse an optional exponent suffix and apply it to the mantissa `m`. -/
def parseExpPart (cs : List Char) (m : ℚ) : Option ℚ :=
  match cs with
  | [] => some m
  | 'e' :: rest => parseExpAfterMark rest m
  | 'E' :: rest => parseExpAfterMark rest m
  | _ => Option.none

/-- Model of Python `float(s)` on finite decimal literals: optional sign,
digits with an optional decimal point (at least one digit overall), and an
optional exponent. Unparseable strings give `Option.none`. -/
def parsePyFloat (s : String) : Option ℚ :=
  let cs := s.toList
  let signAndRest : ℚ × List Char :=
    match cs with
    | '-' :: rest => (-1, rest)
    | '+' :: rest => (1, rest)
    | _ => (1, cs)
  let sign := signAndRest.1
  let body := signAndRest.2
  let intPart := body.takeWhile Char.isDigit
  let afterInt := body.dropWhile Char.isDigit
  match afterInt with
  | '.' :: rest =>
      let fracPart := rest.takeWhile Char.isDigit
      let afterFrac := rest.dropWhile Char.isDigit
      if intPart.isEmpty && fracPart.isEmpty then Option.none
      else
        parseExpPart afterFrac
          (sign * ((digitsToNat intPart : ℚ) +
            (digitsToNat fracPart : ℚ) / (10 : ℚ) ^ fracPart.length))
  | rest =>
      if intPart.isEmpty then Option.none
      else parseExpPart rest (sign * (digitsToNat intPart : ℚ))

/-- Python `round(x, 2)` modelled as round-half-up to two decimals. -/
def round2 (q : ℚ) : ℚ := ((⌊q * 100 + 1/2⌋ : ℤ) : ℚ) / 100

/-- Python `f"{x:.2f}"`: fixed two-decimal rendering of a rational. -/
def format2 (q : ℚ) : String :=
  let n : ℤ := ⌊q * 100 + 1/2⌋
  let sign := if n < 0 then "-" else ""
  let a := n.natAbs
  sign ++ toString (a / 100) ++ "." ++ (if a % 100 < 10 then "0" else "") ++ toString (a % 100)

mutual

/-- `FraudDetector._extract_number`. Every `return` in the Python body
returns a float, modelled as `some _`; the function never returns `None`. -/
def extract_number : PyVal → Option ℚ
  | .pynone => some 0
  | .num q => some q
  | .str s => some ((parsePyFloat (stripCurrency s)).getD 0)
  | .list _ => some 0
  | .dict es => extractNumFromEntries es

/-- The `isinstance(value, dict) and 'value' in value` branch: recurse into
the entry stored under `"value"`, else fall through to `return 0.0`. -/
def extractNumFromEntries : PyEntries → Option ℚ
  | .nil => some 0
  | .cons k v rest => if k = "value" then extract_number v else extractNumFromEntries rest

end

/-- The numeric value of `_extract_number` (total: see `extract_number_total`). -/
def extractNum (v : PyVal) : ℚ := (extract_number v).getD 0

/-- The priority-ordered candidate field names scanned for a GSTIN. -/
def possibleGstinFields : List String :=
  ["vendor_gstin", "customer_gstin", "gstin", "GSTIN", "gst_number", "GST",
   "tax_id", "supplier_gstin", "VendorTaxId", "SellerTaxId"]

def isUpperAlnum (c : Char) : Bool := c.isUpper || c.isDigit

/-- `re.sub(r'[^A-Z0-9]', '', gstin.upper())`. -/
def cleanGstin (s : String) : String :=
  String.mk ((s.toList.map Char.toUpper).filter isUpperAlnum)

/-- `^[0-9]{2}[A-Z0-9]{10}[0-9]{1}[Z]{1}[A-Z0-9]{1}$`. -/
def gstinPatternOk (g : String) : Bool :=
  match g.toList with
  | [a, b, m0, m1, m2, m3, m4, m5, m6, m7, m8, m9, d, z, ch] =>
      a.isDigit && b.isDigit &&
      isUpperAlnum m0 && isUpperAlnum m1 && isUpperAlnum m2 && isUpperAlnum m3 &&
      isUpperAlnum m4 && isUpperAlnum m5 && isUpperAlnum m6 && isUpperAlnum m7 &&
      isUpperAlnum m8 && isUpperAlnum m9 &&
      d.isDigit && (z = 'Z') && isUpperAlnum ch
  | _ => false

/-- The hard-coded demo whitelist in `_verify_gstin_api`. -/
def validTestGstins : List String :=
  ["29AAFCD5862R000", "09AAACF5862R1ZN", "24GJSPS1279A1ZX"]

/-- State of the external world seen by `_verify_gstin_api`: the
`gstin_apikey` environment variable, and whether the body of the `try`
block raises (the `except` handler then returns `True`). -/
structure Env where
  gstin_apikey : Option String
  gstin_api_raises : Bool

/-- Python truthiness of `os.getenv("gstin_apikey")`. -/
def envKeyTruthy (e : Env) : Bool :=
  match e.gstin_apikey with
  | Option.none => false
  | some s => decide (s ≠ "")

/-- `FraudDetector._verify_gstin_api`: every path returns `True` — no key,
whitelist hit, unimplemented real call, and the `except` handler alike. -/
def verify_gstin_api (env : Env) (gstin : String) : Bool :=
  if env.gstin_api_raises then true
  else if !envKeyTruthy env then true
  else if gstin ∈ validTestGstins then true
  else true

/-- The candidate-identifier scan of `_validate_gstin`: the first truthy
top-level alias field, falling back to any alias key inside a dict-valued
`vendor` entry; `Option.none` when the final candidate is falsy. -/
def gstinOf (p : PyVal) : Option String :=
  let stage1 : Option String :=
    (possibleGstinFields.find? (fun f => p.hasKey f && (p.get f).truthy)).map
      (fun f => pyStrip (pyStr (p.get f)))
  let stage1Falsy : Bool :=
    match stage1 with
    | Option.none => true
    | some s => decide (s = "")
  let afterFallback : Option String :=
    if stage1Falsy then
      match p.getD "vendor" (.dict .nil) with
      | .dict es =>
          match possibleGstinFields.find? (fun f => (es.lookup f).isSome) with
          | some f => some (pyStrip (pyStr ((es.lookup f).getD .pynone)))
          | Option.none => stage1
      | _ => stage1
    else stage1
  match afterFallback with
  | some s => if s = "" then Option.none else some s
  | Option.none => Option.none

/-- `FraudDetector._validate_gstin`. -/
def validate_gstin (env : Env) (p : PyVal) : Bool :=
  match gstinOf p with
  | Option.none => false
  | some s =>
      let g := cleanGstin s
      if g.length ≠ 15 then false
      else if !gstinPatternOk g then false
      else verify_gstin_api env g

/-- The diagnostics dict built by `_validate_invoice_math`. -/
structure MathValidations where
  invoice_total : ℚ
  sum_of_line_totals : ℚ
  sum_ok : Bool
  difference : ℚ

/-- `item.get("total") or item.get("amount") or item.get("Amount") or
item.get("TotalPrice") or 0`, normalized. -/
def lineItemTotal (item : PyVal) : ℚ :=
  extractNum (pyOr (item.get "total") (pyOr (item.get "amount")
    (pyOr (item.get "Amount") (pyOr (item.get "TotalPrice") (.num 0)))))

def sumLineTotals : PyList → ℚ
  | .nil => 0
  | .cons item rest => lineItemTotal item + sumLineTotals rest

/-- `FraudDetector._validate_invoice_math`. -/
def validate_invoice_math (p : PyVal) : MathValidations :=
  let invoice_total :=
    extractNum (pyOr (p.get "total_amount") (pyOr (p.get "InvoiceTotal")
      (pyOr (p.get "Amount") (.num 0))))
  let s := sumLineTotals (asPyList (p.getD "line_items" (.list .nil)))
  { invoice_total := invoice_total
    sum_of_line_totals := s
    sum_ok := decide (pyAbs (invoice_total - s) ≤ 1)
    difference := pyAbs (invoice_total - s) }

/-- Check 1 of `detect_fraud`: the tiered total-mismatch penalty. -/
def mathPenalty (mv : MathValidations) : ℚ × List String :=
  if !mv.sum_ok then
    let difference := pyAbs (mv.invoice_total - mv.sum_of_line_totals)
    if difference > 100 then
      (40, ["Invoice total mismatch: ₹" ++ format2 difference ++
            " difference between total and sum of line items"])
    else if difference > 10 then
      (20, ["Minor invoice total mismatch: ₹" ++ format2 difference ++ " difference"])
    else (0, [])
  else (0, [])

/-- Check 2 of `detect_fraud`: the GSTIN penalty. -/
def gstinPenalty (gstin_valid : Bool) : ℚ × List String :=
  if !gstin_valid then (15, ["Invalid or missing GSTIN number"]) else (0, [])

def requiredFields : List String := ["vendor", "invoice_id", "total_amount"]

def missingCount (p : PyVal) : ℕ :=
  (requiredFields.filter (fun f => !(p.get f).truthy)).length

/-- `FraudDetector._check_missing_info`. -/
def check_missing_info (p : PyVal) : ℚ × List String :=
  let m := missingCount p
  if m > 0 then ((m : ℚ) * 5, [toString m ++ " critical field(s) missing from invoice"])
  else (0, [])

def itemQty (item : PyVal) : Option ℚ :=
  extract_number (pyOr (item.get "qty") (item.get "quantity"))

def itemRate (item : PyVal) : Option ℚ :=
  extract_number (pyOr (item.get "rate") (pyOr (item.get "unit_price") (item.get "price")))

def itemTotal (item : PyVal) : Option ℚ :=
  extract_number (pyOr (item.get "total") (item.get "amount"))

/-- The per-item test of `_check_line_item_anomalies`: when quantity, rate
and total all come back non-`None`, flag `|round(qty*rate, 2) - round(total, 2)| > 0.5`. -/
def lineItemFlagged (item : PyVal) : Bool :=
  match itemQty item, itemRate item, itemTotal item with
  | some qty, some rate, some total =>
      decide (pyAbs (round2 (qty * rate) - round2 total) > 1/2)
  | _, _, _ => false

def countCalcErrors : PyList → ℕ
  | .nil => 0
  | .cons item rest => (if lineItemFlagged item then 1 else 0) + countCalcErrors rest

/-- `FraudDetector._check_line_item_anomalies`. -/
def check_line_item_anomalies (p : PyVal) : ℚ × List String :=
  let li := p.getD "line_items" (.list .nil)
  if !li.truthy then (10, ["No line items found in invoice"])
  else
    let errs := countCalcErrors (asPyList li)
    if errs > 0 then
      (min 25 ((errs : ℚ) * 8), [toString errs ++ " line item(s) with calculation errors"])
    else (0, [])

/-- `FraudDetector._get_recommendation`. -/
def get_recommendation (score : ℚ) : String :=
  if score < 15 then "approve" else if score < 40 then "review" else "reject"

/-- Severity order of the three recommendation tiers. -/
def severityRank (r : String) : ℕ :=
  if r = "approve" then 0 else if r = "review" then 1 else 2

structure Validations where
  invoice_total : ℚ
  sum_of_line_totals : ℚ
  sum_ok : Bool
  difference : ℚ
  gstin_validation : Bool

structure FraudReport where
  fraud_score : ℚ
  is_suspicious : Bool
  reasons : List String
  recommendation : String
  validations : Validations

/-- The instance fields `self.fraud_reasons` / `self.fraud_score`. -/
structure DetectorState where
  fraud_reasons : List String
  fraud_score : ℚ

/-- The accumulated `self.fraud_score` after the four checks of
`detect_fraud` (the accumulator starts from the reset value `0.0`). -/
def totalScore (env : Env) (parsed : PyVal) : ℚ :=
  (mathPenalty (validate_invoice_math parsed)).1 +
  (gstinPenalty (validate_gstin env parsed)).1 +
  (check_missing_info parsed).1 +
  (check_line_item_anomalies parsed).1

/-- The accumulated `self.fraud_reasons`, in evaluation order. -/
def allReasons (env : Env) (parsed : PyVal) : List String :=
  (mathPenalty (validate_invoice_math parsed)).2 ++
  (gstinPenalty (validate_gstin env parsed)).2 ++
  (check_missing_info parsed).2 ++
  (check_line_item_anomalies parsed).2

/-- `FraudDetector.detect_fraud` as a state transformer on the detector
instance. Lines 51-52 of the source reset both accumulators before any
check runs, so the incoming state is never read; the outgoing state holds
the accumulated reasons and the raw (unrounded) score. The `bill` argument
is accepted and ignored, as in the source. -/
def detect_fraud_st (env : Env) (st : DetectorState) (bill parsed : PyVal) :
    FraudReport × DetectorState :=
  let mv := validate_invoice_math parsed
  let gstin_valid := validate_gstin env parsed
  let total := totalScore env parsed
  ({ fraud_score := round2 total
     is_suspicious := decide (total > 30)
     reasons := allReasons env parsed
     recommendation := get_recommendation total
     validations :=
       { invoice_total := mv.invoice_total
         sum_of_line_totals := mv.sum_of_line_totals
         sum_ok := mv.sum_ok
         difference := mv.difference
         gstin_validation := gstin_valid } },
   { fraud_reasons := allReasons env parsed, fraud_score := total })

/-- `detect_bill_fraud`: run `detect_fraud` on a fresh `FraudDetector`. -/
def detect_fraud (env : Env) (bill parsed : PyVal) : FraudReport :=
  (detect_fraud_st env { fraud_reasons := [], fraud_score := 0 } bill parsed).1

/-- A bill row as read back by `db.get_all_bills()` in `upload_bill`. -/
structure StoredBill where
  bill_id : String
  project_id : String
  vendor_name : String
  total_amount : ℚ
  file_hash : String
  created_day : ℤ

/-- The duplicate scan in `upload_bill`: the first stored bill whose
content hash and project both match. -/
def findDuplicate (bills : List StoredBill) (fileHash project : String) : Option StoredBill :=
  bills.find? (fun b => b.file_hash = fileHash && b.project_id = project)

/-- The score added by `upload_bill` for a detected duplicate
(`fraud_score += 30.0`). -/
def duplicateScore (bills : List StoredBill) (fileHash project : String) : ℚ :=
  if (findDuplicate bills fileHash project).isSome then 30 else 0

/-- The second bill's stored fraud score in `upload_bill`: the detector
score plus the duplicate contribution. -/
def uploadFraudScore (env : Env) (bills : List StoredBill)
    (bill parsed : PyVal) (fileHash project : String) : ℚ :=
  (detect_fraud env bill parsed).fraud_score + duplicateScore bills fileHash project

/-! ## Concrete inputs used by counterexamples, scenarios and witnesses -/

/-- No API key configured, no exception raised: the default environment. -/
def env0 : Env := { gstin_apikey := Option.none, gstin_api_raises := false }

def bill0 : PyVal := .dict .nil

/-- An invoice with a valid-format GSTIN, all critical fields present,
consistent line items, and a 20-unit total mismatch: raw score 20. -/
def parsed20 : PyVal :=
  .dict (.cons "total_amount" (.num 120)
    (.cons "vendor" (.str "Acme Traders")
      (.cons "invoice_id" (.str "INV-1")
        (.cons "vendor_gstin" (.str "09AAACF5862R1ZN")
          (.cons "line_items"
            (.list (.cons
              (.dict (.cons "qty" (.num 1) (.cons "rate" (.num 100)
                (.cons "total" (.num 100) .nil))))
              .nil))
            .nil)))))

/-- Scenario C of the spec: declared total 1000, line items summing to 700. -/
def parsedC : PyVal :=
  .dict (.cons "total_amount" (.num 1000)
    (.cons "line_items"
      (.list (.cons (.dict (.cons "total" (.num 700) .nil)) .nil))
      .nil))

/-- A line item carrying plain numeric `qty`, `rate` and `total` fields. -/
def mkItem (q r t : ℚ) : PyVal :=
  .dict (.cons "qty" (.num q) (.cons "rate" (.num r) (.cons "total" (.num t) .nil)))

/-- A line item with `qty` and `rate` but no total field at all. -/
def itemNoTotal : PyVal :=
  .dict (.cons "qty" (.num 2) (.cons "rate" (.num 3) .nil))

def parsedNoTotal : PyVal :=
  .dict (.cons "line_items" (.list (.cons itemNoTotal .nil)) .nil)

/-- A stored bill, as returned by `db.get_all_bills()`. -/
def storedBill1 : StoredBill :=
  ⟨"bill-1", "proj-A", "Acme Traders", 100000, "hash-1", 0⟩

/-! ## Helper lemmas -/

mutual

theorem extract_number_isSome : (v : PyVal) → (extract_number v).isSome = true
  | .pynone => rfl
  | .num _ => rfl
  | .str _ => rfl
  | .list _ => rfl
  | .dict es => extractNumFromEntries_isSome es

theorem extractNumFromEntries_isSome : (es : PyEntries) → (extractNumFromEntries es).isSome = true
  | .nil => rfl
  | .cons k v rest => by
      unfold extractNumFromEntries
      split
      · exact extract_number_isSome v
      · exact extractNumFromEntries_isSome rest

end

theorem extract_number_eq_some (v : PyVal) : extract_number v = some (extractNum v) := by
  have hs := extract_number_isSome v
  unfold extractNum
  cases h : extract_number v with
  | none => rw [h] at hs; simp at hs
  | some q => simp

theorem round2_eq_of (q : ℚ) (k : ℤ) (h1 : (k : ℚ) ≤ q * 100 + 1/2)
    (h2 : q * 100 + 1/2 < (k : ℚ) + 1) : round2 q = (k : ℚ) / 100 := by
  unfold round2
  have h : ⌊q * 100 + 1/2⌋ = k := Int.floor_eq_iff.mpr ⟨h1, by exact_mod_cast h2⟩
  rw [h]

theorem round2_natCast (n : ℕ) : round2 (n : ℚ) = n := by
  unfold round2
  have h : (n : ℚ) * 100 + 1/2 = (1/2 : ℚ) + ((100 * n : ℤ) : ℚ) := by push_cast; ring
  rw [h, Int.floor_add_int, show ⌊(1/2 : ℚ)⌋ = 0 from Int.floor_eq_iff.mpr (by norm_num)]
  push_cast
  field_simp

theorem mathPenalty_nat (mv : MathValidations) :
    ∃ n : ℕ, (mathPenalty mv).1 = (n : ℚ) ∧ n ≤ 40 := by
  unfold mathPenalty
  dsimp only
  split_ifs
  · exact ⟨40, by norm_num⟩
  · exact ⟨20, by norm_num⟩
  · exact ⟨0, by norm_num⟩
  · exact ⟨0, by norm_num⟩

theorem gstinPenalty_nat (b : Bool) : ∃ n : ℕ, (gstinPenalty b).1 = (n : ℚ) ∧ n ≤ 15 := by
  unfold gstinPenalty
  split_ifs
  · exact ⟨15, by norm_num⟩
  · exact ⟨0, by norm_num⟩

theorem missingCount_le (p : PyVal) : missingCount p ≤ 3 :=
  le_trans (List.length_filter_le _ _) (by simp [requiredFields])

theorem check_missing_info_nat (p : PyVal) :
    ∃ n : ℕ, (check_missing_info p).1 = (n : ℚ) ∧ n ≤ 15 := by
  unfold check_missing_info
  dsimp only
  split_ifs
  · refine ⟨missingCount p * 5, by push_cast; ring, ?_⟩
    have := missingCount_le p
    omega
  · exact ⟨0, by norm_num⟩

theorem check_line_item_anomalies_nat (p : PyVal) :
    ∃ n : ℕ, (check_line_item_anomalies p).1 = (n : ℚ) ∧ n ≤ 25 := by
  unfold check_line_item_anomalies
  dsimp only
  split_ifs
  · exact ⟨10, by norm_num⟩
  · refine ⟨min 25 (countCalcErrors (asPyList (p.getD "line_items" (.list .nil))) * 8),
      ?_, min_le_left _ _⟩
    push_cast [Nat.cast_min]
    ring
  · exact ⟨0, by norm_num⟩

theorem totalScore_nat (env : Env) (p : PyVal) :
    ∃ n : ℕ, totalScore env p = (n : ℚ) ∧ n ≤ 95 := by
  obtain ⟨n1, e1, b1⟩ := mathPenalty_nat (validate_invoice_math p)
  obtain ⟨n2, e2, b2⟩ := gstinPenalty_nat (validate_gstin env p)
  obtain ⟨n3, e3, b3⟩ := check_missing_info_nat p
  obtain ⟨n4, e4, b4⟩ := check_line_item_anomalies_nat p
  refine ⟨n1 + n2 + n3 + n4, ?_, by omega⟩
  unfold totalScore
  rw [e1, e2, e3, e4]
  push_cast
  ring

theorem detect_fraud_score_eq (env : Env) (bill parsed : PyVal) :
    (detect_fraud env bill parsed).fraud_score = totalScore env parsed := by
  show round2 (totalScore env parsed) = totalScore env parsed
  obtain ⟨n, hn, _⟩ := totalScore_nat env parsed
  rw [hn, round2_natCast]

theorem round2_zero : round2 (0 : ℚ) = 0 := by
  rw [show (0:ℚ) = ((0:ℕ):ℚ) by norm_num, round2_natCast]

theorem round2_700 : round2 (700 : ℚ) = 700 := by
  rw [show (700:ℚ) = ((700:ℕ):ℚ) by norm_num, round2_natCast]

theorem validate_gstin_parsed20 : validate_gstin env0 parsed20 = true := by decide

theorem validate_gstin_parsedC : validate_gstin env0 parsedC = false := by decide

theorem mv_parsed20 : validate_invoice_math parsed20 =
    { invoice_total := 120, sum_of_line_totals := 100, sum_ok := false, difference := 20 } := by
  simp [validate_invoice_math, parsed20, extractNum, extract_number, PyVal.get, PyVal.getD,
    PyEntries.lookup, pyOr, PyVal.truthy, asPyList, sumLineTotals, lineItemTotal, pyAbs]
  norm_num

theorem mv_parsedC : validate_invoice_math parsedC =
    { invoice_total := 1000, sum_of_line_totals := 700, sum_ok := false, difference := 300 } := by
  simp [validate_invoice_math, parsedC, extractNum, extract_number, PyVal.get, PyVal.getD,
    PyEntries.lookup, pyOr, PyVal.truthy, asPyList, sumLineTotals, lineItemTotal, pyAbs]
  norm_num

theorem cmi_parsed20 : check_missing_info parsed20 = (0, []) := by
  simp [check_missing_info, missingCount, requiredFields, parsed20, PyVal.get,
    PyEntries.lookup, PyVal.truthy]

theorem cmi_parsedC : check_missing_info parsedC =
    (10, ["2 critical field(s) missing from invoice"]) := by
  simp [check_missing_info, missingCount, requiredFields, parsedC, PyVal.get,
    PyEntries.lookup, PyVal.truthy]
  norm_num
  decide

theorem clia_parsed20 : check_line_item_anomalies parsed20 = (0, []) := by
  simp [check_line_item_anomalies, parsed20, PyVal.getD, PyEntries.lookup, PyVal.truthy,
    PyList.isNil, asPyList, countCalcErrors, lineItemFlagged, itemQty, itemRate, itemTotal,
    extract_number, pyOr, PyVal.get, round2, pyAbs]

theorem flagged_onlyTotal700 : lineItemFlagged (.dict (.cons "total" (.num 700) .nil)) = true := by
  simp [lineItemFlagged, itemQty, itemRate, itemTotal, PyVal.get, PyEntries.lookup, pyOr,
    PyVal.truthy, extract_number]
  rw [round2_zero, round2_700]
  norm_num [pyAbs]

theorem clia_parsedC : check_line_item_anomalies parsedC =
    (8, ["1 line item(s) with calculation errors"]) := by
  have h := flagged_onlyTotal700
  simp [check_line_item_anomalies, parsedC, PyVal.getD, PyEntries.lookup, PyVal.truthy,
    PyList.isNil, asPyList, countCalcErrors, h]
  norm_num
  decide

theorem totalScore_parsed20 : totalScore env0 parsed20 = 20 := by
  unfold totalScore
  rw [mv_parsed20, validate_gstin_parsed20, cmi_parsed20, clia_parsed20]
  norm_num [mathPenalty, gstinPenalty, pyAbs]

theorem totalScore_parsedC : totalScore env0 parsedC = 73 := by
  unfold totalScore
  rw [mv_parsedC, validate_gstin_parsedC, cmi_parsedC, clia_parsedC]
  norm_num [mathPenalty, gstinPenalty, pyAbs]

/-! ## Claim theorems -/

/-- Claim C1: for every bill and parsed-invoice input, the `fraud_score`
returned by `detect_fraud` is in [0, 100] (it is an exact rational, hence
finite); the four contributions together never leave that range. -/
theorem fraud_score_in_range (env : Env) (bill parsed : PyVal) :
    0 ≤ (detect_fraud env bill parsed).fraud_score ∧
      (detect_fraud env bill parsed).fraud_score ≤ 100 := by
  obtain ⟨n, hn, hb⟩ := totalScore_nat env parsed
  rw [detect_fraud_score_eq, hn]
  constructor
  · positivity
  · exact_mod_cast hb.trans (by norm_num)

/-- Claim C2: the recommendation is a pure function of the fraud score with
the {15, 40} threshold pair — below 15 approve, in [15, 40) review, at and
above 40 reject — and a higher score never yields a less severe tier. -/
theorem recommendation_pure_monotone :
    (∀ env bill parsed, (detect_fraud env bill parsed).recommendation =
        get_recommendation ((detect_fraud env bill parsed).fraud_score))
    ∧ (∀ s : ℚ, s < 15 → get_recommendation s = "approve")
    ∧ (∀ s : ℚ, 15 ≤ s → s < 40 → get_recommendation s = "review")
    ∧ (∀ s : ℚ, 40 ≤ s → get_recommendation s = "reject")
    ∧ (∀ s t : ℚ, s ≤ t →
        severityRank (get_recommendation s) ≤ severityRank (get_recommendation t)) := by
  refine ⟨?_, ?_, ?_, ?_, ?_⟩
  · intro env bill parsed
    rw [detect_fraud_score_eq]
    rfl
  · intro s h
    simp [get_recommendation, h]
  · intro s h1 h2
    simp [get_recommendation, h2, not_lt.mpr h1]
  · intro s h
    simp [get_recommendation, not_lt.mpr h, not_lt.mpr (by linarith : (15:ℚ) ≤ s)]
  · intro s t hst
    have ha : severityRank "approve" = 0 := by decide
    have hr : severityRank "review" = 1 := by decide
    have hj : severityRank "reject" = 2 := by decide
    unfold get_recommendation
    by_cases h1 : s < 15
    · by_cases h2 : t < 15
      · simp [h1, h2, ha]
      · by_cases h3 : t < 40 <;> simp [h1, h2, h3, ha, hr, hj]
    · have hs15 : (15:ℚ) ≤ s := not_lt.mp h1
      have ht15 : ¬ t < 15 := not_lt.mpr (le_trans hs15 hst)
      by_cases h2 : s < 40
      · by_cases h3 : t < 40
        · simp [h1, h2, ht15, h3, hr]
        · simp [h1, h2, ht15, h3, hr, hj]
      · have ht40 : ¬ t < 40 := not_lt.mpr (le_trans (not_lt.mp h2) hst)
        simp [h1, h2, ht15, ht40, hj]

theorem recommendation_pure_monotone_witness :
    get_recommendation (3 : ℚ) = "approve" ∧ get_recommendation (20 : ℚ) = "review" ∧
      get_recommendation (50 : ℚ) = "reject" ∧
      severityRank (get_recommendation (10 : ℚ)) ≤ severityRank (get_recommendation (45 : ℚ)) :=
  ⟨recommendation_pure_monotone.2.1 3 (by norm_num),
   recommendation_pure_monotone.2.2.1 20 (by norm_num) (by norm_num),
   recommendation_pure_monotone.2.2.2.1 50 (by norm_num),
   recommendation_pure_monotone.2.2.2.2 10 45 (by norm_num)⟩

/-- Claim C3, counterexample: on an invoice scoring 20, the score exceeds
the review threshold 15 (the recommendation is already "review"), yet
`is_suspicious` is false — the code compares against 30, not against the
review threshold. -/
theorem is_suspicious_counterexample :
    15 < (detect_fraud env0 bill0 parsed20).fraud_score ∧
      (detect_fraud env0 bill0 parsed20).recommendation = "review" ∧
      (detect_fraud env0 bill0 parsed20).is_suspicious = false := by
  have h := totalScore_parsed20
  refine ⟨?_, ?_, ?_⟩
  · rw [detect_fraud_score_eq, h]
    norm_num
  · show get_recommendation (totalScore env0 parsed20) = "review"
    rw [h]
    norm_num [get_recommendation]
  · show decide (totalScore env0 parsed20 > 30) = false
    rw [h]
    norm_num

/-- Claim C3, amended: `is_suspicious` is true exactly when the fraud score
exceeds 30 — a fixed cutoff strictly between the review threshold (15) and
the reject threshold (40), not the review threshold itself. -/
theorem is_suspicious_iff_score_gt_30 (env : Env) (bill parsed : PyVal) :
    (detect_fraud env bill parsed).is_suspicious = true ↔
      30 < (detect_fraud env bill parsed).fraud_score := by
  rw [detect_fraud_score_eq]
  show decide (totalScore env parsed > 30) = true ↔ _
  simp

/-- Claim C9: `detect_fraud` resets the instance accumulators
(`self.fraud_reasons`, `self.fraud_score`) before any check runs, so the
report is independent of the incoming detector state, and a second call on
the same (mutated) instance with the same inputs returns the identical
report — same score, flag, recommendation, and reasons in the same order. -/
theorem detect_fraud_idempotent :
    (∀ env st1 st2 bill parsed,
        (detect_fraud_st env st1 bill parsed).1 = (detect_fraud_st env st2 bill parsed).1)
    ∧ (∀ env st bill parsed,
        (detect_fraud_st env (detect_fraud_st env st bill parsed).2 bill parsed).1 =
          (detect_fraud_st env st bill parsed).1) :=
  ⟨fun _ _ _ _ _ => rfl, fun _ _ _ _ => rfl⟩

theorem itemQty_mkItem (q r t : ℚ) : itemQty (mkItem q r t) = some q := by
  by_cases hq : q = 0
  · simp [itemQty, mkItem, PyVal.get, PyEntries.lookup, pyOr, PyVal.truthy, extract_number, hq]
  · simp [itemQty, mkItem, PyVal.get, PyEntries.lookup, pyOr, PyVal.truthy, extract_number, hq]

theorem itemRate_mkItem (q r t : ℚ) : itemRate (mkItem q r t) = some r := by
  by_cases hr : r = 0
  · simp [itemRate, mkItem, PyVal.get, PyEntries.lookup, pyOr, PyVal.truthy, extract_number, hr]
  · simp [itemRate, mkItem, PyVal.get, PyEntries.lookup, pyOr, PyVal.truthy, extract_number, hr]

theorem itemTotal_mkItem (q r t : ℚ) : itemTotal (mkItem q r t) = some t := by
  by_cases ht : t = 0
  · simp [itemTotal, mkItem, PyVal.get, PyEntries.lookup, pyOr, PyVal.truthy, extract_number, ht]
  · simp [itemTotal, mkItem, PyVal.get, PyEntries.lookup, pyOr, PyVal.truthy, extract_number, ht]

theorem lineItemFlagged_mkItem (q r t : ℚ) :
    lineItemFlagged (mkItem q r t) = decide (1/2 < pyAbs (round2 (q * r) - round2 t)) := by
  simp [lineItemFlagged, itemQty_mkItem, itemRate_mkItem, itemTotal_mkItem]

theorem flagged_itemNoTotal : lineItemFlagged itemNoTotal = true := by
  simp [lineItemFlagged, itemQty, itemRate, itemTotal, itemNoTotal, PyVal.get,
    PyEntries.lookup, pyOr, PyVal.truthy, extract_number]
  rw [show ((2:ℚ) * 3) = ((6:ℕ):ℚ) by norm_num, round2_natCast, round2_zero]
  norm_num [pyAbs]

/-- Claim C4: `sum_ok` holds iff the absolute difference between the
declared total and the sum of line totals is at most 1.0; when `sum_ok`
fails, the penalty is 40 with a mismatch reason above a 100-unit
discrepancy, 20 with a minor-mismatch reason above 10 units, and nothing
otherwise; and the scenario with declared total 1000 against line items
summing to 700 earns the 40-point penalty and at least a "review"
recommendation. -/
theorem invoice_math_tiers :
    (∀ p : PyVal, (validate_invoice_math p).sum_ok = true ↔
        pyAbs ((validate_invoice_math p).invoice_total -
          (validate_invoice_math p).sum_of_line_totals) ≤ 1)
    ∧ (∀ mv : MathValidations, mv.sum_ok = false →
        100 < pyAbs (mv.invoice_total - mv.sum_of_line_totals) →
        mathPenalty mv = (40, ["Invoice total mismatch: ₹" ++
          format2 (pyAbs (mv.invoice_total - mv.sum_of_line_totals)) ++
          " difference between total and sum of line items"]))
    ∧ (∀ mv : MathValidations, mv.sum_ok = false →
        10 < pyAbs (mv.invoice_total - mv.sum_of_line_totals) →
        pyAbs (mv.invoice_total - mv.sum_of_line_totals) ≤ 100 →
        mathPenalty mv = (20, ["Minor invoice total mismatch: ₹" ++
          format2 (pyAbs (mv.invoice_total - mv.sum_of_line_totals)) ++ " difference"]))
    ∧ (∀ mv : MathValidations, mv.sum_ok = false →
        pyAbs (mv.invoice_total - mv.sum_of_line_totals) ≤ 10 →
        mathPenalty mv = (0, []))
    ∧ ((mathPenalty (validate_invoice_math parsedC)).1 = 40 ∧
        1 ≤ severityRank (detect_fraud env0 bill0 parsedC).recommendation) := by
  refine ⟨?_, ?_, ?_, ?_, ?_, ?_⟩
  · intro p
    simp [validate_invoice_math]
  · intro mv h h100
    simp [mathPenalty, h, h100]
  · intro mv h h10 hle
    simp [mathPenalty, h, h10, not_lt.mpr hle]
  · intro mv h hle
    have h100 : ¬ 100 < pyAbs (mv.invoice_total - mv.sum_of_line_totals) :=
      not_lt.mpr (by linarith)
    simp [mathPenalty, h, h100, not_lt.mpr hle]
  · rw [mv_parsedC]
    norm_num [mathPenalty, pyAbs]
  · have h : (detect_fraud env0 bill0 parsedC).recommendation = "reject" := by
      show get_recommendation (totalScore env0 parsedC) = "reject"
      rw [totalScore_parsedC]
      norm_num [get_recommendation]
    rw [h]
    decide

theorem invoice_math_tiers_witness :
    mathPenalty ⟨1000, 700, false, 300⟩ = (40, ["Invoice total mismatch: ₹" ++
        format2 (pyAbs ((1000:ℚ) - 700)) ++ " difference between total and sum of line items"])
    ∧ mathPenalty ⟨120, 100, false, 20⟩ = (20, ["Minor invoice total mismatch: ₹" ++
        format2 (pyAbs ((120:ℚ) - 100)) ++ " difference"])
    ∧ mathPenalty ⟨108, 100, false, 8⟩ = (0, []) :=
  ⟨invoice_math_tiers.2.1 ⟨1000, 700, false, 300⟩ rfl (by norm_num [pyAbs]),
   invoice_math_tiers.2.2.1 ⟨120, 100, false, 20⟩ rfl (by norm_num [pyAbs]) (by norm_num [pyAbs]),
   invoice_math_tiers.2.2.2.1 ⟨108, 100, false, 8⟩ rfl (by norm_num [pyAbs])⟩

/-- Claim C5, counterexample: on an unparseable string the normalizer
returns `0.0` (`some 0`), not the `None` marker the claim requires. -/
theorem extract_number_counterexample :
    extract_number (.str "unparseable") = some 0 ∧
      extract_number (.str "unparseable") ≠ Option.none := by
  constructor
  · decide
  · decide

/-- Claim C5, amended: the normalizer passes native numbers through, strips
currency symbols, thousands separators and whitespace from strings,
recurses into `{value: ...}` wrappers, and is total — it never raises and
never returns `None`; any unparseable input yields `0.0` (so callers see
zero, not an "insufficient data" marker). -/
theorem extract_number_amended :
    (∀ q : ℚ, extract_number (.num q) = some q)
    ∧ extract_number (.str "₹1,234.50") = some (1234.5)
    ∧ (∀ v : PyVal, ∀ rest : PyEntries,
        extract_number (.dict (.cons "value" v rest)) = extract_number v)
    ∧ (∀ v : PyVal, (extract_number v).isSome = true) := by
  refine ⟨fun q => rfl, ?_, ?_, extract_number_isSome⟩
  · have h : stripCurrency "₹1,234.50" = "1234.50" := by decide
    simp [extract_number, h, parsePyFloat, parseExpPart, digitsToNat]
    norm_num
  · intro v rest
    simp [extract_number, extractNumFromEntries]

/-- Claim C6, counterexample: the line item (qty 1, rate 1000, total
1000.504) has all three fields present and satisfies the claim's condition
|round(qty*rate, 2) - total| > 0.5, yet the code does not flag it, because
it compares against round(total, 2) = 1000.50. -/
theorem line_item_tolerance_counterexample :
    lineItemFlagged (mkItem 1 1000 1000.504) = false ∧
      1/2 < pyAbs (round2 ((1:ℚ) * 1000) - 1000.504) := by
  have h1 : round2 ((1:ℚ) * 1000) = 1000 := by
    rw [show ((1:ℚ) * 1000) = ((1000:ℕ):ℚ) by norm_num, round2_natCast]
    norm_num
  have h2 : round2 (1000.504 : ℚ) = 1000.5 := by
    rw [round2_eq_of 1000.504 100050 (by norm_num) (by norm_num)]
    norm_num
  constructor
  · rw [lineItemFlagged_mkItem, h1, h2]
    norm_num [pyAbs]
  · rw [h1]
    norm_num [pyAbs]

/-- Claim C6, amended: a line item with numeric quantity, rate and total is
flagged iff |round(qty*rate, 2) - round(total, 2)| > 0.5 (the stated total
is itself rounded to two decimals before comparison), and the aggregate
line-item score contribution never exceeds 25. -/
theorem line_item_tolerance_amended :
    (∀ q r t : ℚ, lineItemFlagged (mkItem q r t) = true ↔
        1/2 < pyAbs (round2 (q * r) - round2 t))
    ∧ (∀ p : PyVal, (check_line_item_anomalies p).1 ≤ 25) := by
  constructor
  · intro q r t
    rw [lineItemFlagged_mkItem]
    simp
  · intro p
    obtain ⟨n, hn, hb⟩ := check_line_item_anomalies_nat p
    rw [hn]
    exact_mod_cast hb

/-- Claim C10: `_extract_number` is total — every input maps to a float
(`some _`, with 0.0 as fallback), so the `is None` disqualification branch
in `_check_line_item_anomalies` never fires; a line item with qty 2 and
rate 3 but no total is counted as a calculation error (round(2*3, 2) = 6 >
0.5 against the defaulted total 0.0) instead of being excluded. -/
theorem extract_number_total_guard :
    (∀ v : PyVal, (extract_number v).isSome = true)
    ∧ (∀ item : PyVal, (itemQty item).isSome = true ∧ (itemRate item).isSome = true ∧
        (itemTotal item).isSome = true)
    ∧ lineItemFlagged itemNoTotal = true
    ∧ check_line_item_anomalies parsedNoTotal =
        (8, ["1 line item(s) with calculation errors"]) := by
  refine ⟨extract_number_isSome, ?_, flagged_itemNoTotal, ?_⟩
  · intro item
    exact ⟨extract_number_isSome _, extract_number_isSome _, extract_number_isSome _⟩
  · simp [check_line_item_anomalies, parsedNoTotal, PyVal.getD, PyEntries.lookup,
      PyVal.truthy, PyList.isNil, asPyList, countCalcErrors, flagged_itemNoTotal]
    norm_num
    decide

/-- Claim C7, counterexample: a second bill from the same vendor, in the
same project, submitted one day after the stored bill with an amount
within 5% of it, but with different file bytes (hence a different content
hash), receives a duplicate contribution of 0, not at least 25. -/
theorem duplicate_detection_counterexample :
    (storedBill1.vendor_name = "Acme Traders" ∧ storedBill1.project_id = "proj-A" ∧
      pyAbs (101000 - storedBill1.total_amount) ≤ 5/100 * storedBill1.total_amount ∧
      (1 : ℤ) - storedBill1.created_day ≤ 7) ∧
    duplicateScore [storedBill1] "hash-2" "proj-A" = 0 ∧
    ¬ 25 ≤ duplicateScore [storedBill1] "hash-2" "proj-A" := by
  have h0 : duplicateScore [storedBill1] "hash-2" "proj-A" = 0 := by
    simp [duplicateScore, findDuplicate, List.find?, storedBill1]
  refine ⟨⟨rfl, rfl, ?_, by decide⟩, h0, ?_⟩
  · norm_num [storedBill1, pyAbs]
  · rw [h0]
    norm_num

/-- Claim C7, amended: the only duplicate signal in the code is the exact
content fingerprint — `upload_bill` adds 30 (which is at least 25) exactly
when some stored bill in the same project has the same file hash; same
vendor, a 7-day window and a 5% amount tolerance play no role. -/
theorem duplicate_detection_amended :
    ∀ (bills : List StoredBill) (h p : String),
      (duplicateScore bills h p = 30 ↔ ∃ b ∈ bills, b.file_hash = h ∧ b.project_id = p)
      ∧ (duplicateScore bills h p = 0 ↔ ¬ ∃ b ∈ bills, b.file_hash = h ∧ b.project_id = p) := by
  intro bills h p
  constructor
  · unfold duplicateScore
    by_cases hf : (findDuplicate bills h p).isSome
    · simp only [hf, if_true]
      unfold findDuplicate at hf
      rw [List.find?_isSome] at hf
      simp only [Bool.and_eq_true, decide_eq_true_eq] at hf
      simpa using hf
    · simp only [hf, if_false]
      unfold findDuplicate at hf
      rw [List.find?_isSome] at hf
      simp only [Bool.and_eq_true, decide_eq_true_eq] at hf
      constructor
      · intro habs
        norm_num at habs
      · intro hex
        exact absurd (by simpa using hex) hf
  · unfold duplicateScore
    by_cases hf : (findDuplicate bills h p).isSome
    · simp only [hf, if_true]
      unfold findDuplicate at hf
      rw [List.find?_isSome] at hf
      simp only [Bool.and_eq_true, decide_eq_true_eq] at hf
      constructor
      · intro habs
        norm_num at habs
      · intro hnex
        exact absurd (by simpa using hf) hnex
    · simp only [hf, if_false]
      unfold findDuplicate at hf
      rw [List.find?_isSome] at hf
      simp only [Bool.and_eq_true, decide_eq_true_eq] at hf
      constructor
      · intro _
        intro hex
        exact hf (by simpa using hex)
      · intro _
        rfl

/-- Claim C8: tax-identifier verification is fail-open — whenever the
external capability is unconfigured (no API key) or its call raises, the
verification step returns `True`, and a format-valid identifier therefore
makes the whole validator succeed. -/
theorem gstin_fail_open :
    (∀ env : Env, ∀ g : String,
        envKeyTruthy env = false ∨ env.gstin_api_raises = true →
        verify_gstin_api env g = true)
    ∧ (∀ env : Env, ∀ p : PyVal, ∀ s : String, gstinOf p = some s →
        (cleanGstin s).length = 15 →
        gstinPatternOk (cleanGstin s) = true →
        envKeyTruthy env = false ∨ env.gstin_api_raises = true →
        validate_gstin env p = true) := by
  constructor
  · intro env g _
    unfold verify_gstin_api
    split_ifs <;> rfl
  · intro env p s hg hlen hpat _
    unfold validate_gstin
    rw [hg]
    simp [hlen, hpat, verify_gstin_api]

theorem gstin_fail_open_witness :
    verify_gstin_api env0 "24GJSPS1279A1ZX" = true ∧ validate_gstin env0 parsed20 = true :=
  ⟨gstin_fail_open.1 env0 "24GJSPS1279A1ZX" (Or.inl rfl),
   gstin_fail_open.2 env0 parsed20 "09AAACF5862R1ZN" (by decide) (by decide) (by decide)
     (Or.inl rfl)⟩
